import Mathlib

/-
Verification development for the `verifier` Go package
(github.com/storozhukBM/verifier): a defensive-programming assertion
accumulator with short-circuiting checks, terminal queries, and a
finalizer-based unhandled-verification diagnostic.

The embedding below translates the current variant of the source
(the file defining `Verify` with nil-receiver handling, chaining
returns, and `WithError`).  Machine pointers are modelled by an
explicit heap (a list of `Verify` objects) together with handles
(`Option Nat`, where `none` is the nil pointer).  Side effects are
made explicit: predicate invocations are counted, panics and process
exits are returned as data, diagnostic output is returned as a string.
-/

namespace Verifier

/-- Model of a Go `error` value.  The three constructors cover the ways
errors arise in this package: `fmt.Errorf(format, args...)`,
`errors.New(msg)`, and an arbitrary caller-supplied error value of some
named dynamic type (as produced by a custom error factory). -/
inductive GoError where
  | fmtError (format : String) (args : List String)
  | newError (msg : String)
  | customError (typeName : String) (msg : String)
deriving DecidableEq, Repr

/-- Simplified model of `fmt.Sprintf`: substitutes each `%s` or `%d`
verb by the next argument, rendered as a string.  No claim depends on
the details of formatting; this only fixes an executable meaning for
`Error()` on formatted errors. -/
def substFormat : List Char → List String → List Char
  | [], _ => []
  | '%' :: v :: rest, a :: args =>
      if v = 's' ∨ v = 'd' then a.data ++ substFormat rest args
      else '%' :: substFormat (v :: rest) (a :: args)
  | c :: rest, args => c :: substFormat rest args

def goSprintf (format : String) (args : List String) : String :=
  ⟨substFormat format.data args⟩

/-- The string returned by the `Error()` method of the modelled error. -/
def GoError.Error : GoError → String
  | .fmtError format args => goSprintf format args
  | .newError msg => msg
  | .customError _ msg => msg

/-- The dynamic type of the modelled error value.  `fmt.Errorf` (without
`%w`) and `errors.New` both produce a `*errors.errorString`. -/
def GoError.typeName : GoError → String
  | .fmtError _ _ => "*errors.errorString"
  | .newError _ => "*errors.errorString"
  | .customError t _ => t

/-- One captured stack frame, as rendered by `runtime.CallersFrames`:
a function name, a file and a line. -/
structure Frame where
  function : String
  file : String
  line : Nat
deriving DecidableEq, Repr

/-- The zero `runtime.Frame`, returned by `Frames.Next` when the
captured program-counter slice is empty. -/
def zeroFrame : Frame :=
  { function := "", file := "", line := 0 }

/-- The `Verify` struct of the source: creation stack, recorded error,
and the `checked` (consulted) flag. -/
structure Verify where
  creationStack : List Frame
  err : Option GoError
  checked : Bool
deriving DecidableEq, Repr

/-- The zero value `Verify{}`, allocated by the nil-receiver guard of
every check method. -/
def emptyVerify : Verify :=
  { creationStack := [], err := none, checked := false }

/-- `New` captures a creation stack and returns a fresh instance (with
`printWarningOnUncheckedVerification` registered as its finalizer).
The captured stack is a parameter of the model. -/
def New (stack : List Frame) : Verify :=
  { creationStack := stack, err := none, checked := false }

/-- `Offensive` captures a creation stack and returns a fresh instance
(with `failProcessOnUncheckedVerification` registered as its
finalizer). -/
def Offensive (stack : List Frame) : Verify :=
  { creationStack := stack, err := none, checked := false }

/-- Body of `That` on a non-nil receiver: clear `checked`, short-circuit
if already failed, otherwise record `fmt.Errorf(message, args...)` when
the condition is false. -/
def Verify.That (v : Verify) (positiveCondition : Bool)
    (message : String) (args : List String) : Verify :=
  let v0 := { v with checked := false }
  if v0.err.isSome then v0
  else if positiveCondition then v0
  else { v0 with err := some (GoError.fmtError message args) }

/-- Body of `Predicate` on a non-nil receiver.  The second component of
the result counts how many times the predicate argument was invoked by
this call (0 or 1); the `Bool` argument is the value the predicate
returns when it is invoked.  The source invokes the predicate exactly
when the accumulator has not already failed. -/
def Verify.Predicate (v : Verify) (predicate : Bool)
    (message : String) (args : List String) : Verify × Nat :=
  let v0 := { v with checked := false }
  if v0.err.isSome then (v0, 0)
  else if predicate then (v0, 1)
  else ({ v0 with err := some (GoError.fmtError message args) }, 1)

/-- Body of `WithError` on a non-nil receiver: like `That` but records
the caller-supplied error value unchanged. -/
def Verify.WithError (v : Verify) (positiveCondition : Bool)
    (e : GoError) : Verify :=
  let v0 := { v with checked := false }
  if v0.err.isSome then v0
  else if positiveCondition then v0
  else { v0 with err := some e }

/-- Body of `GetError` on a non-nil receiver: set `checked` and return
the recorded error (the new state is returned explicitly). -/
def Verify.GetError (v : Verify) : Verify × Option GoError :=
  ({ v with checked := true }, v.err)

/-- Body of `PanicOnError` on a non-nil receiver: set `checked`; the
second component is the panic message when the call panics, `none` when
it returns normally. -/
def Verify.PanicOnError (v : Verify) : Verify × Option String :=
  let v0 := { v with checked := true }
  match v0.err with
  | some e => (v0, some ("verification failure: " ++ e.Error))
  | none => (v0, none)

/-- Body of `String` on a non-nil receiver. -/
def Verify.String (v : Verify) : String :=
  match v.err with
  | none => "verification success"
  | some e => "verification failure: " ++ e.Error

/-- One check operation of the public chaining interface, as data, so
that sequences of checks can be quantified over and predicate
invocations counted. -/
inductive CheckOp where
  | that (positiveCondition : Bool) (message : String) (args : List String)
  | predicate (value : Bool) (message : String) (args : List String)
  | withErr (positiveCondition : Bool) (e : GoError)
deriving DecidableEq, Repr

/-- Apply one check operation to a (non-nil) accumulator state; the
`Nat` counts predicate invocations performed by the operation. -/
def stepCheck (v : Verify) : CheckOp → Verify × Nat
  | .that c message args => (v.That c message args, 0)
  | .predicate p message args => v.Predicate p message args
  | .withErr c e => (v.WithError c e, 0)

/-- Run a sequence of check operations left to right on a (non-nil)
accumulator, totalling the predicate invocations. -/
def runChecks (v : Verify) : List CheckOp → Verify × Nat
  | [] => (v, 0)
  | op :: rest =>
      ((runChecks (stepCheck v op).1 rest).1,
       (stepCheck v op).2 + (runChecks (stepCheck v op).1 rest).2)

/-- A check operation passes when its condition (or predicate value) is
true, so that it records no error. -/
def passes : CheckOp → Bool
  | .that c _ _ => c
  | .predicate p _ _ => p
  | .withErr c _ => c

/-! ### Heap and handle model

Go pointers are modelled by an explicit heap.  A handle is either the
nil pointer or the index of an allocated `Verify` object; every check
method begins with the nil-receiver guard of the source
(`if v == nil { vObj = &Verify{} }`, an allocation of the zero value),
then mutates the object the handle designates in place and returns the
handle to it. -/

abbrev Heap := List Verify

abbrev Handle := Option Nat

/-- The full method `That`: nil-receiver guard, then the body on the
designated object.  On a nil handle a fresh zero object is allocated
and its handle returned; on a valid handle the object is updated in
place and the same handle returned. -/
def callThat (heap : Heap) (h : Handle) (positiveCondition : Bool)
    (message : String) (args : List String) : Heap × Handle :=
  match h with
  | none =>
      (heap ++ [emptyVerify.That positiveCondition message args],
       some heap.length)
  | some a =>
      (heap.set a ((heap.getD a emptyVerify).That positiveCondition message args),
       some a)

/-- The full method `Predicate`; the last component counts predicate
invocations performed by the call. -/
def callPredicate (heap : Heap) (h : Handle) (predicate : Bool)
    (message : String) (args : List String) : Heap × Handle × Nat :=
  match h with
  | none =>
      (heap ++ [(emptyVerify.Predicate predicate message args).1],
       some heap.length,
       (emptyVerify.Predicate predicate message args).2)
  | some a =>
      (heap.set a ((heap.getD a emptyVerify).Predicate predicate message args).1,
       some a,
       ((heap.getD a emptyVerify).Predicate predicate message args).2)

/-- The full method `WithError`. -/
def callWithError (heap : Heap) (h : Handle) (positiveCondition : Bool)
    (e : GoError) : Heap × Handle :=
  match h with
  | none =>
      (heap ++ [emptyVerify.WithError positiveCondition e], some heap.length)
  | some a =>
      (heap.set a ((heap.getD a emptyVerify).WithError positiveCondition e),
       some a)

/-- The full method `GetError`: on a nil handle it returns the sentinel
`errors.New("verifier instance is nil")` without touching the heap. -/
def callGetError (heap : Heap) (h : Handle) : Heap × Option GoError :=
  match h with
  | none => (heap, some (GoError.newError "verifier instance is nil"))
  | some a =>
      (heap.set a ((heap.getD a emptyVerify).GetError).1,
       ((heap.getD a emptyVerify).GetError).2)

/-- The full method `PanicOnError`: on a nil handle it panics with the
sentinel message (second component) without touching the heap. -/
def callPanicOnError (heap : Heap) (h : Handle) : Heap × Option String :=
  match h with
  | none => (heap, some "verifier instance is nil")
  | some a =>
      (heap.set a ((heap.getD a emptyVerify).PanicOnError).1,
       ((heap.getD a emptyVerify).PanicOnError).2)

/-- The full method `String`: on a nil handle it returns the literal
`"nil"`. -/
def callString (heap : Heap) (h : Handle) : String :=
  match h with
  | none => "nil"
  | some a => (heap.getD a emptyVerify).String

/-- Apply one check operation through a handle. -/
def stepCheckH (heap : Heap) (h : Handle) : CheckOp → Heap × Handle × Nat
  | .that c message args =>
      ((callThat heap h c message args).1, (callThat heap h c message args).2, 0)
  | .predicate p message args => callPredicate heap h p message args
  | .withErr c e =>
      ((callWithError heap h c e).1, (callWithError heap h c e).2, 0)

/-- Run a chain of check operations left to right through handles,
each call receiving the handle returned by the previous one, totalling
predicate invocations. -/
def runChecksH (heap : Heap) (h : Handle) : List CheckOp → Heap × Handle × Nat
  | [] => (heap, h, 0)
  | op :: rest =>
      ((runChecksH (stepCheckH heap h op).1 (stepCheckH heap h op).2.1 rest).1,
       (runChecksH (stepCheckH heap h op).1 (stepCheckH heap h op).2.1 rest).2.1,
       (stepCheckH heap h op).2.2 +
         (runChecksH (stepCheckH heap h op).1 (stepCheckH heap h op).2.1 rest).2.2)

/-! ### Lifecycle tracker -/

/-- One frame as printed by `printCreationStack`:
`fmt.Fprintf(writer, "%s\n\t%s:%d\n", frame.Function, frame.File, frame.Line)`. -/
def renderFrame (f : Frame) : String :=
  f.function ++ "\n\t" ++ f.file ++ ":" ++ toString f.line ++ "\n"

/-- The `printCreationStack` loop over `runtime.CallersFrames`: a
do-while, so with an empty captured stack it still renders the zero
frame once. -/
def printCreationStack : List Frame → String
  | [] => renderFrame zeroFrame
  | [f] => renderFrame f
  | f :: g :: rest => renderFrame f ++ printCreationStack (g :: rest)

/-- The finalizer registered by `New`: the text it writes to the
current sink (empty when the accumulator was consulted). -/
def printWarningOnUncheckedVerification (v : Verify) : String :=
  if v.checked then ""
  else
    "[ERROR] found unhandled verification: " ++ v.String ++ "\n"
      ++ "verification was created here:\n"
      ++ printCreationStack v.creationStack

/-- The finalizer registered by `Offensive`: the text written, and the
process exit code when it calls `os.Exit(1)` (`none` when the process
is not terminated). -/
def failProcessOnUncheckedVerification (v : Verify) : String × Option Nat :=
  if v.checked then ("", none)
  else (printWarningOnUncheckedVerification v, some 1)

/-! ### Full operation traces (checks, terminal queries, `String`) -/

/-- Any public operation on a (non-nil) accumulator, as data. -/
inductive Op where
  | check (c : CheckOp)
  | getError
  | panicOnError
  | describe
deriving DecidableEq, Repr

/-- State transition of one operation (outputs are dropped; `String`
reads the state without writing it). -/
def applyOp (v : Verify) : Op → Verify
  | .check c => (stepCheck v c).1
  | .getError => (v.GetError).1
  | .panicOnError => (v.PanicOnError).1
  | .describe => v

def runOps (v : Verify) : List Op → Verify
  | [] => v
  | op :: rest => runOps (applyOp v op) rest

/-- Specification-side fold for the consulted flag: a check clears it,
a terminal query sets it, `String` leaves it. -/
def consultedStep (b : Bool) : Op → Bool
  | .check _ => false
  | .getError => true
  | .panicOnError => true
  | .describe => b

def consultedAfter (b : Bool) : List Op → Bool
  | [] => b
  | op :: rest => consultedAfter (consultedStep b op) rest

/-- Number of newline characters in a string (each emitted line is
newline-terminated). -/
def countNL (s : String) : Nat :=
  s.data.count '\n'

/-- Per-frame rendering of the whole captured stack, one entry per
frame (each entry being the two-line frame rendering). -/
def renderStack (fs : List Frame) : String :=
  fs.foldr (fun f acc => renderFrame f ++ acc) ""

/-! ### Error-factory extension (spec-modelled) -/

/-- Modelled from the spec: the error-factory extension
(`WithErrFactory`).  Its implementation is not under src/ — only its
test (`TestVerifies_WithErrorFactory`) appears there — so, per the
spec, the accumulator additionally carries an optional
`errorFactory : (format, args) -> error`, defaulting to the generic
formatted-error constructor, and a failed condition check records the
error that factory produces. -/
structure VerifyF where
  base : Verify
  errFactory : Option (String → List String → GoError)

/-- Modelled from the spec: a tracked instance starts with no custom
factory (the default generic formatter applies). -/
def NewF (stack : List Frame) : VerifyF :=
  { base := New stack, errFactory := none }

/-- Modelled from the spec: the setter/builder accepting a
`(format, args) -> error` function, returning the accumulator for
chaining. -/
def VerifyF.WithErrFactory (v : VerifyF)
    (factory : String → List String → GoError) : VerifyF :=
  { v with errFactory := some factory }

/-- Modelled from the spec: `That` in the presence of the optional
factory — identical short-circuit semantics, with the recorded error
produced by the custom factory when one is set and by the default
generic formatter otherwise. -/
def VerifyF.That (v : VerifyF) (positiveCondition : Bool)
    (message : String) (args : List String) : VerifyF :=
  let b0 := { v.base with checked := false }
  if b0.err.isSome then { v with base := b0 }
  else if positiveCondition then { v with base := b0 }
  else
    { v with base :=
        { b0 with err := some ((v.errFactory.getD GoError.fmtError) message args) } }

/-- The custom factory of the repository test: it produces a
`TestError` value (a distinct dynamic type) carrying the formatted
message. -/
def testErrorFactory : String → List String → GoError :=
  fun format args => GoError.customError "verifier_test.TestError" (goSprintf format args)

/-! ### Helper lemmas -/

lemma that_checked (v : Verify) (c : Bool) (m : String) (a : List String) :
    (v.That c m a).checked = false := by
  simp only [Verify.That]
  split
  · rfl
  · split <;> rfl

lemma predicate_checked (v : Verify) (p : Bool) (m : String) (a : List String) :
    (v.Predicate p m a).1.checked = false := by
  simp only [Verify.Predicate]
  split
  · rfl
  · split <;> rfl

lemma withError_checked (v : Verify) (c : Bool) (e : GoError) :
    (v.WithError c e).checked = false := by
  simp only [Verify.WithError]
  split
  · rfl
  · split <;> rfl

lemma stepCheck_checked (v : Verify) (op : CheckOp) :
    ((stepCheck v op).1).checked = false := by
  cases op with
  | that c m a => exact that_checked v c m a
  | predicate p m a => exact predicate_checked v p m a
  | withErr c e => exact withError_checked v c e

/-- A check on an already-failed accumulator only clears the consulted
flag and performs no predicate invocation. -/
lemma stepCheck_failed (v : Verify) (e : GoError) (op : CheckOp)
    (h : v.err = some e) :
    stepCheck v op = ({ v with checked := false }, 0) := by
  cases op with
  | that c m a => simp [stepCheck, Verify.That, h]
  | predicate p m a => simp [stepCheck, Verify.Predicate, h]
  | withErr c e0 => simp [stepCheck, Verify.WithError, h]

/-- A passing check on a not-yet-failed accumulator records no error. -/
lemma stepCheck_passes (v : Verify) (op : CheckOp)
    (h : v.err = none) (hp : passes op = true) :
    (stepCheck v op).1.err = none := by
  cases op with
  | that c m a =>
      simp only [passes] at hp
      simp [stepCheck, Verify.That, h, hp]
  | predicate p m a =>
      simp only [passes] at hp
      simp [stepCheck, Verify.Predicate, h, hp]
  | withErr c e0 =>
      simp only [passes] at hp
      simp [stepCheck, Verify.WithError, h, hp]

lemma runChecks_failed (ops : List CheckOp) :
    ∀ (v : Verify) (e : GoError), v.err = some e →
      (runChecks v ops).1.err = some e ∧ (runChecks v ops).2 = 0 := by
  induction ops with
  | nil => intro v e h; exact ⟨h, rfl⟩
  | cons op rest ih =>
      intro v e h
      have hstep := stepCheck_failed v e op h
      have ih2 := ih { v with checked := false } e h
      simp [runChecks, hstep]
      exact ih2

lemma runChecks_passes (ops : List CheckOp) :
    ∀ (v : Verify), v.err = none → (∀ op ∈ ops, passes op = true) →
      (runChecks v ops).1.err = none := by
  induction ops with
  | nil => intro v h _; exact h
  | cons op rest ih =>
      intro v h hall
      have h1 : passes op = true := hall op (List.mem_cons_self op rest)
      have h2 : (stepCheck v op).1.err = none := stepCheck_passes v op h h1
      simp only [runChecks]
      exact ih (stepCheck v op).1 h2 fun o ho => hall o (List.mem_cons_of_mem op ho)

lemma applyOp_checked (v : Verify) (op : Op) :
    (applyOp v op).checked = consultedStep v.checked op := by
  cases op with
  | check c => simpa [applyOp, consultedStep] using stepCheck_checked v c
  | getError => rfl
  | panicOnError =>
      simp only [applyOp, Verify.PanicOnError, consultedStep]
      split <;> rfl
  | describe => rfl

lemma runOps_checked (ops : List Op) :
    ∀ (v : Verify), (runOps v ops).checked = consultedAfter v.checked ops := by
  induction ops with
  | nil => intro v; rfl
  | cons op rest ih =>
      intro v
      simp only [runOps, consultedAfter]
      rw [ih (applyOp v op), applyOp_checked]

lemma getD_set_self {α : Type} :
    ∀ (l : List α) (i : Nat) (x d : α), i < l.length →
      (l.set i x).getD i d = x
  | [], i, x, d, h => absurd h (by simp)
  | y :: t, 0, x, d, _ => rfl
  | y :: t, i + 1, x, d, h =>
      getD_set_self t i x d (by simpa using h)

lemma set_getD_self {α : Type} :
    ∀ (l : List α) (i : Nat) (d : α), i < l.length →
      l.set i (l.getD i d) = l
  | [], i, d, h => absurd h (by simp)
  | y :: t, 0, d, _ => rfl
  | y :: t, i + 1, d, h =>
      congrArg (y :: ·) (set_getD_self t i d (by simpa using h))

/-- One check through a valid handle is exactly the in-place update of
the designated object, and the call returns the same handle. -/
lemma stepCheckH_some (heap : Heap) (a : Nat) (op : CheckOp) :
    stepCheckH heap (some a) op
      = (heap.set a (stepCheck (heap.getD a emptyVerify) op).1, some a,
         (stepCheck (heap.getD a emptyVerify) op).2) := by
  cases op with
  | that c m args => rfl
  | predicate p m args => rfl
  | withErr c e => rfl

/-- A chain through a valid handle keeps returning that handle and
threads all mutation through the one designated object, matching the
sequential run of the state machine (states and predicate-invocation
counts alike). -/
lemma runChecksH_some (ops : List CheckOp) :
    ∀ (heap : Heap) (a : Nat), a < heap.length →
      runChecksH heap (some a) ops
        = (heap.set a (runChecks (heap.getD a emptyVerify) ops).1, some a,
           (runChecks (heap.getD a emptyVerify) ops).2) := by
  induction ops with
  | nil =>
      intro heap a h
      simp only [runChecksH, runChecks]
      rw [set_getD_self heap a emptyVerify h]
  | cons op rest ih =>
      intro heap a h
      have hlen : a < (heap.set a (stepCheck (heap.getD a emptyVerify) op).1).length := by
        rw [List.length_set]; exact h
      simp only [runChecksH, runChecks, stepCheckH_some]
      rw [ih _ a hlen]
      rw [getD_set_self heap a (stepCheck (heap.getD a emptyVerify) op).1 emptyVerify h]
      rw [List.set_set]

/-! ### Claims -/

/-- Claim C1: for every accumulator (in particular every one built by a
factory) and every sequence of check operations, once the recorded
error is non-nil every subsequent `That`/`Predicate`/`WithError` call
leaves it unchanged and invokes no predicate argument at all; in the
concrete four-predicate run from the repository test where the third
predicate fails, exactly 3 predicate invocations occur. -/
theorem claim1_short_circuit_after_failure :
    (∀ (v : Verify) (e : GoError) (ops : List CheckOp), v.err = some e →
        (runChecks v ops).1.err = some e ∧ (runChecks v ops).2 = 0)
    ∧ (runChecks (New [])
        [CheckOp.predicate true "should be ok" [],
         CheckOp.predicate true "still OK" [],
         CheckOp.predicate false "should break here" [],
         CheckOp.predicate true "will not evaluate" []]).2 = 3
    ∧ (runChecks (New [])
        [CheckOp.predicate true "should be ok" [],
         CheckOp.predicate true "still OK" [],
         CheckOp.predicate false "should break here" [],
         CheckOp.predicate true "will not evaluate" []]).1.err
        = some (GoError.fmtError "should break here" []) :=
  ⟨fun v e ops h => runChecks_failed ops v e h, rfl, rfl⟩

/-- Witness for C1: a concrete already-failed accumulator is left
unchanged by a further predicate check, with zero invocations. -/
theorem claim1_short_circuit_after_failure_witness :
    (runChecks { creationStack := [], err := some (GoError.newError "boom"), checked := false }
        [CheckOp.predicate true "p" []]).1.err = some (GoError.newError "boom")
    ∧ (runChecks { creationStack := [], err := some (GoError.newError "boom"), checked := false }
        [CheckOp.predicate true "p" []]).2 = 0 :=
  claim1_short_circuit_after_failure.1
    { creationStack := [], err := some (GoError.newError "boom"), checked := false }
    (GoError.newError "boom") [CheckOp.predicate true "p" []] rfl

/-- Claim C2: on a non-nil accumulator `GetError` sets the consulted
flag, returns the recorded error (none when no check has failed, in
particular after any all-passing run from a factory-fresh instance),
changes nothing else, and is idempotent: a repeated call returns the
same value and keeps the flag set. -/
theorem claim2_getError_terminal_query :
    ∀ (v : Verify) (stack : List Frame) (ops : List CheckOp),
      (v.GetError.1 = { v with checked := true })
      ∧ (v.GetError.2 = v.err)
      ∧ (v.GetError.1.GetError = v.GetError)
      ∧ ((∀ op ∈ ops, passes op = true) →
          ((runChecks (New stack) ops).1.GetError).2 = none) := by
  intro v stack ops
  exact ⟨rfl, rfl, rfl, fun h => runChecks_passes ops (New stack) rfl h⟩

/-- Witness for C2: after one passing check from a fresh instance,
`GetError` returns none. -/
theorem claim2_getError_terminal_query_witness :
    ((runChecks (New []) [CheckOp.that true "x" []]).1.GetError).2 = none :=
  (claim2_getError_terminal_query emptyVerify [] [CheckOp.that true "x" []]).2.2.2
    (by decide)

/-- Claim C3: on a non-nil accumulator `PanicOnError` sets the
consulted flag (and changes nothing else), and panics exactly when the
recorded error is non-nil, with the message
`"verification failure: " ++ recordedError.Error()`; with no recorded
error it returns normally. -/
theorem claim3_panicOnError_terminal_query :
    ∀ (v : Verify),
      (v.PanicOnError.1 = { v with checked := true })
      ∧ (v.PanicOnError.2
          = v.err.map (fun e => "verification failure: " ++ e.Error)) := by
  intro v
  constructor
  · simp only [Verify.PanicOnError]
    split <;> rfl
  · cases h : v.err with
    | none => simp [Verify.PanicOnError, h]
    | some e => simp [Verify.PanicOnError, h]

/-- Claim C4 counterexample: on the nil handle, a `Predicate` call does
invoke its predicate argument (the nil-receiver guard substitutes a
fresh, unfailed zero object), so the count is not 0 as the claim
requires. -/
theorem claim4_nil_handle_counterexample :
    ¬ ((callPredicate ([] : Heap) none false "should not evaluate" []).2.2 = 0) := by
  decide

/-- Claim C4 (amended): on the nil handle, check operations never
mutate any existing accumulator and record nothing onto the nil handle
itself, but they are not no-ops treating the handle as already-failed:
each allocates a fresh empty accumulator and applies the check to it,
and a predicate argument IS invoked (exactly once) by such a call;
`GetError` on the nil handle returns the fixed sentinel error and
`PanicOnError` panics with the fixed sentinel message instead of
crashing. -/
theorem claim4_nil_handle_amended :
    ∀ (heap : Heap) (p c : Bool) (m : String) (args : List String) (i : Nat),
      (callGetError heap none
        = (heap, some (GoError.newError "verifier instance is nil")))
      ∧ (callPanicOnError heap none = (heap, some "verifier instance is nil"))
      ∧ ((callPredicate heap none p m args).2.2 = 1)
      ∧ (i < heap.length →
          ((callThat heap none c m args).1.getD i emptyVerify
              = heap.getD i emptyVerify)
          ∧ ((callPredicate heap none p m args).1.getD i emptyVerify
              = heap.getD i emptyVerify)) := by
  intro heap p c m args i
  refine ⟨rfl, rfl, ?_, ?_⟩
  · cases p <;> rfl
  · intro hi
    exact ⟨List.getD_append _ _ _ _ hi, List.getD_append _ _ _ _ hi⟩

/-- Witness for the amended C4: with one allocated accumulator on the
heap, a check through the nil handle leaves it untouched. -/
theorem claim4_nil_handle_amended_witness :
    ((callThat [emptyVerify] none false "m" []).1.getD 0 emptyVerify
        = [emptyVerify].getD 0 emptyVerify)
    ∧ ((callPredicate [emptyVerify] none false "m" []).1.getD 0 emptyVerify
        = [emptyVerify].getD 0 emptyVerify) :=
  (claim4_nil_handle_amended [emptyVerify] false false "m" [] 0).2.2.2 (by decide)

/-- Claim C5: every check operation on a valid (non-nil) handle returns
that same handle, and a left-to-right chain of checks threads all
mutation through the one designated object — its result (final state
and predicate-invocation count alike) is the sequential run of the
short-circuiting state machine on that object. -/
theorem claim5_chaining_same_handle :
    ∀ (heap : Heap) (a : Nat) (ops : List CheckOp) (c p : Bool)
      (m : String) (args : List String) (e : GoError),
      a < heap.length →
        ((callThat heap (some a) c m args).2 = some a)
        ∧ ((callPredicate heap (some a) p m args).2.1 = some a)
        ∧ ((callWithError heap (some a) c e).2 = some a)
        ∧ (runChecksH heap (some a) ops
            = (heap.set a (runChecks (heap.getD a emptyVerify) ops).1, some a,
               (runChecks (heap.getD a emptyVerify) ops).2)) := by
  intro heap a ops c p m args e h
  exact ⟨rfl, rfl, rfl, runChecksH_some ops heap a h⟩

/-- Witness for C5: a concrete one-object heap and a one-check chain. -/
theorem claim5_chaining_same_handle_witness :
    ((callThat [emptyVerify] (some 0) false "m" []).2 = some 0)
    ∧ ((callPredicate [emptyVerify] (some 0) false "m" []).2.1 = some 0)
    ∧ ((callWithError [emptyVerify] (some 0) false (GoError.newError "e")).2 = some 0)
    ∧ (runChecksH [emptyVerify] (some 0) [CheckOp.that false "m" []]
        = ([emptyVerify].set 0
             (runChecks ([emptyVerify].getD 0 emptyVerify) [CheckOp.that false "m" []]).1,
           some 0,
           (runChecks ([emptyVerify].getD 0 emptyVerify) [CheckOp.that false "m" []]).2)) :=
  claim5_chaining_same_handle [emptyVerify] 0 [CheckOp.that false "m" []]
    false false "m" [] (GoError.newError "e") (by decide)

/-- Claim C6 counterexample: for an unconsulted failed accumulator with
a single captured frame, the diagnostic text has 4 newline-terminated
lines, not the 3 that one line per stack frame would give — the frame
rendering is two lines (function name, then tab-indented file:line). -/
theorem claim6_diagnostic_format_counterexample :
    countNL (printWarningOnUncheckedVerification
        { creationStack := [{ function := "main.main", file := "main.go", line := 10 }],
          err := some (GoError.newError "boom"), checked := false }) = 4
    ∧ ¬ (countNL (printWarningOnUncheckedVerification
        { creationStack := [{ function := "main.main", file := "main.go", line := 10 }],
          err := some (GoError.newError "boom"), checked := false }) = 3) := by
  constructor <;> decide

lemma printCreationStack_eq_renderStack :
    ∀ (f : Frame) (fs : List Frame),
      printCreationStack (f :: fs) = renderStack (f :: fs) := by
  intro f fs
  induction fs generalizing f with
  | nil => exact (String.append_empty (renderFrame f)).symm
  | cons g rest ih =>
      show renderFrame f ++ printCreationStack (g :: rest) = renderStack (f :: g :: rest)
      rw [ih g]
      rfl

/-- Claim C6 (amended): the finalizer registered by `New` writes
nothing when the accumulator was consulted; otherwise it writes exactly
`"[ERROR] found unhandled verification: "` followed by the `String`
description, then `"verification was created here:"` and one entry per
captured stack frame, each entry rendered as two lines — the function
name, then a tab-indented `file:line`.  This holds for failed and
non-failed accumulators alike: with no recorded error the description
is `"verification success"` and nothing crashes. -/
theorem claim6_diagnostic_format_amended :
    ∀ (v : Verify) (e : GoError),
      (v.checked = true → printWarningOnUncheckedVerification v = "")
      ∧ (v.checked = false → v.creationStack ≠ [] →
          printWarningOnUncheckedVerification v
            = "[ERROR] found unhandled verification: " ++ v.String ++ "\n"
              ++ "verification was created here:\n"
              ++ renderStack v.creationStack)
      ∧ (v.err = none → v.String = "verification success")
      ∧ (v.err = some e → v.String = "verification failure: " ++ e.Error)
      ∧ (∀ f : Frame, renderFrame f
          = f.function ++ "\n\t" ++ f.file ++ ":" ++ toString f.line ++ "\n") := by
  intro v e
  refine ⟨fun h => by simp [printWarningOnUncheckedVerification, h], ?_,
    fun h => by simp [Verify.String, h], fun h => by simp [Verify.String, h],
    fun f => rfl⟩
  intro hc hne
  cases hs : v.creationStack with
  | nil => exact absurd hs hne
  | cons f fs =>
      simp only [printWarningOnUncheckedVerification, hc, Bool.false_eq_true,
        if_false, hs]
      rw [printCreationStack_eq_renderStack f fs]

/-- Witness for the amended C6: a concrete unconsulted, non-failed
accumulator with one captured frame. -/
theorem claim6_diagnostic_format_amended_witness :
    printWarningOnUncheckedVerification
        { creationStack := [{ function := "main.main", file := "main.go", line := 10 }],
          err := none, checked := false }
      = "[ERROR] found unhandled verification: "
          ++ Verify.String
              { creationStack := [{ function := "main.main", file := "main.go", line := 10 }],
                err := none, checked := false } ++ "\n"
          ++ "verification was created here:\n"
          ++ renderStack [{ function := "main.main", file := "main.go", line := 10 }] :=
  ((claim6_diagnostic_format_amended
      { creationStack := [{ function := "main.main", file := "main.go", line := 10 }],
        err := none, checked := false }
      (GoError.newError "e")).2.1) rfl (by decide)

/-- Claim C7: the finalizer registered by `Offensive`
(`failProcessOnUncheckedVerification`) terminates the process with exit
code 1 exactly when the accumulator was left unconsulted by the
operation trace; a consulted strict accumulator never causes
termination. -/
theorem claim7_strict_termination_iff_unconsulted :
    ∀ (stack : List Frame) (ops : List Op),
      ((failProcessOnUncheckedVerification (runOps (Offensive stack) ops)).2
        = if consultedAfter false ops then none else some 1)
      ∧ ((failProcessOnUncheckedVerification (runOps (Offensive stack) ops)).2 = some 1
          ↔ consultedAfter false ops = false) := by
  intro stack ops
  have h : (runOps (Offensive stack) ops).checked = consultedAfter false ops :=
    runOps_checked ops (Offensive stack)
  have h1 : (failProcessOnUncheckedVerification (runOps (Offensive stack) ops)).2
      = if consultedAfter false ops then none else some 1 := by
    simp only [failProcessOnUncheckedVerification, h]
    split <;> rfl
  refine ⟨h1, ?_⟩
  rw [h1]
  cases consultedAfter false ops <;> simp

/-- Claim C8: the consulted flag is false at construction, cleared by
every check operation (also on already-failed accumulators), untouched
by `String`, and over any operation trace from a fresh instance it
equals the fold that is set only by terminal queries — so it is true
exactly when a terminal query came after the last check. -/
theorem claim8_consulted_flag_dynamics :
    ∀ (stack : List Frame) (ops : List Op) (v : Verify) (c : CheckOp),
      ((New stack).checked = false)
      ∧ ((Offensive stack).checked = false)
      ∧ (emptyVerify.checked = false)
      ∧ ((stepCheck v c).1.checked = false)
      ∧ (applyOp v Op.describe = v)
      ∧ ((runOps (New stack) ops).checked = consultedAfter false ops) := by
  intro stack ops v c
  exact ⟨rfl, rfl, rfl, stepCheck_checked v c, rfl, runOps_checked ops (New stack)⟩

/-- Claim C9: the error-factory setter stores the supplied
`(format, args) -> error` function; a failed condition check on an
accumulator configured with a custom factory records the error that
factory produces (so `GetError` returns an error of the factory
type), while without a custom factory the default formatted error
(type `*errors.errorString`) is recorded. -/
theorem claim9_error_factory :
    ∀ (stack : List Frame) (factory : String → List String → GoError)
      (message : String) (args : List String),
      (((NewF stack).WithErrFactory factory).errFactory = some factory)
      ∧ ((((NewF stack).WithErrFactory factory).That false message args).base.GetError.2
          = some (factory message args))
      ∧ (((NewF stack).That false message args).base.GetError.2
          = some (GoError.fmtError message args))
      ∧ (((((NewF stack).WithErrFactory testErrorFactory).That
            false "test error message" []).base.GetError.2.map GoError.typeName)
          = some "verifier_test.TestError")
      ∧ ((((NewF stack).That false "test error message" []).base.GetError.2.map
            GoError.typeName)
          = some "*errors.errorString") := by
  intro stack factory message args
  exact ⟨rfl, rfl, rfl, rfl, rfl⟩

/-- Claim C10: `String` on the nil handle returns the literal `"nil"`,
which is neither the success string nor any failure description, and
the call is total (no crash). -/
theorem claim10_nil_handle_string :
    (∀ heap : Heap, callString heap none = "nil")
    ∧ "nil" ≠ "verification success"
    ∧ (∀ s : String, "nil" ≠ "verification failure: " ++ s) := by
  refine ⟨fun heap => rfl, by decide, ?_⟩
  intro s h
  have hl := congrArg String.length h
  rw [String.length_append] at hl
  have h3 : ("nil" : String).length = 3 := by decide
  have h22 : ("verification failure: " : String).length = 22 := by decide
  rw [h3, h22] at hl
  omega

/-- Witness for C10: the nil-handle description on the empty heap, and
its difference from a concrete failure description. -/
theorem claim10_nil_handle_string_witness :
    callString ([] : Heap) none = "nil"
    ∧ "nil" ≠ "verification failure: " ++ "boom" :=
  ⟨claim10_nil_handle_string.1 [], claim10_nil_handle_string.2.2 "boom"⟩

end Verifier
